import Mathlib

/-!
Shallow embedding of `VastAI_MailBot.py` (single-file polling bot that
diffs VastAI machine listings against a persisted snapshot and emails a
summary).  Python floats are modelled as `ℚ`, Python ints as `ℤ`,
JSON-absent fields as `Option`, and the `x or d` truthiness idiom as the
`pyOr*` helpers.  Emails and the human-readable lines are modelled as
structured records carrying exactly the values interpolated into the
source's f-strings; glyph/format details are plumbing and not modelled.
-/

set_option autoImplicit false

/-- Python `x or d` on numbers: `d` when `x` is falsy (`0`), else `x`. -/
def pyOr (x d : ℚ) : ℚ := if x = 0 then d else x

/-- Python `x or d` on integers. -/
def pyOrInt (x d : ℤ) : ℤ := if x = 0 then d else x

/-- Python `x or d` on booleans. -/
def pyOrBool (x d : Bool) : Bool := if x then x else d

/-- Python `x or d` on strings: `d` when `x` is the empty string. -/
def pyOrStr (x d : String) : String := if x = "" then d else x

/-- Source line 21: `RETRY_TIMEOUT = 15`.  The constant is declared with the
comment "Retry timeout in seconds" but is never referenced anywhere else in
the file. -/
def RETRY_TIMEOUT : ℕ := 15

/-- Source line 23: `API_TIMEOUT = 10`. -/
def API_TIMEOUT : ℕ := 10

/-- One machine dict as returned by the `/machines` endpoint; only the keys
the script reads (lines 198-223) are modelled, each `Option` because the
script accesses every one of them with `dict.get`. -/
structure RawServer where
  id : ℤ
  listed : Option Bool := none
  current_rentals_running : Option ℤ := none
  current_rentals_resident : Option ℤ := none
  reliability2 : Option ℚ := none
  num_gpus : Option ℤ := none
  earn_hour : Option ℚ := none
  earn_day : Option ℚ := none
  gpu_occupancy : Option String := none
  num_reports : Option ℤ := none
  min_bid_price : Option ℚ := none
  listed_gpu_cost : Option ℚ := none
  listed_storage_cost : Option ℚ := none
  listed_min_gpu_count : Option ℤ := none
  deriving DecidableEq

/-- The per-machine dict written into `self.previous_status[server_id]`
(source lines 288-300): exactly these eleven keys. -/
structure MachineSnapshot where
  rented : Bool
  rented_gpus : ℤ
  listed_gpu_cost : ℚ
  listed_storage_cost : ℚ
  min_bid_price : ℚ
  listed_min_gpu_count : ℤ
  earn_hour : ℚ
  earn_day : ℚ
  reliability : ℚ
  num_reports : ℤ
  gpu_occupancy : String
  deriving DecidableEq

/-- Number of occurrences of character `c` in `s` (Python `s.count(c)` for a
one-character needle). -/
def countChar (c : Char) (s : String) : ℤ :=
  ((s.toList.filter (fun x => x == c)).length : ℤ)

/-- The local variables of the server loop body (source lines 202-227),
assembled into the snapshot dict of lines 288-300.  `x or default`
coalescing follows the source exactly; `rented_gpus` and the listing costs
depend on `listed` exactly as in lines 219-227. -/
def obsOf (server : RawServer) : MachineSnapshot :=
  let listed := server.listed.getD false
  let running := server.current_rentals_running.getD 0
  let rented := decide (running > 0)
  let reliability := pyOr (server.reliability2.getD 0) 0
  let earn_hour := pyOr (server.earn_hour.getD 0) 0
  let earn_day := pyOr (server.earn_day.getD 0) 0
  let gpu_occupancy := pyOrStr (server.gpu_occupancy.getD "") ""
  let num_reports := pyOrInt (server.num_reports.getD 0) 0
  let min_bid_price := pyOr (server.min_bid_price.getD 0) 0
  let rented_gpus :=
    if listed then countChar 'D' gpu_occupancy + countChar 'I' gpu_occupancy
    else running
  let listed_gpu_cost := if listed then pyOr (server.listed_gpu_cost.getD 0) 0 else 0
  let listed_storage_cost := if listed then pyOr (server.listed_storage_cost.getD 0) 0 else 0
  let listed_min_gpu_count := if listed then pyOrInt (server.listed_min_gpu_count.getD 0) 0 else 0
  ⟨rented, rented_gpus, listed_gpu_cost, listed_storage_cost, min_bid_price,
    listed_min_gpu_count, earn_hour, earn_day, reliability, num_reports, gpu_occupancy⟩

/-- The per-server status line `server_line` (source lines 229-235), as the
values interpolated into the f-string.  `listedPrice` is
`(listed_gpu_cost, min_bid_price, listed_storage_cost)` when listed and
`none` for the `NotList` branch. -/
structure ServerLine where
  serverId : ℤ
  rented : Bool
  rentedGpus : ℤ
  numGpus : ℤ
  listedMinGpuCount : ℤ
  listedPrice : Option (ℚ × ℚ × ℚ)
  reliability : ℚ
  resident : ℤ
  running : ℤ
  deriving DecidableEq

/-- Build the status line of source lines 229-235 for one server. -/
def serverLineOf (server : RawServer) : ServerLine :=
  let o := obsOf server
  ⟨server.id, o.rented, o.rented_gpus, server.num_gpus.getD 0, o.listed_min_gpu_count,
    if server.listed.getD false then some (o.listed_gpu_cost, o.min_bid_price, o.listed_storage_cost)
    else none,
    o.reliability, server.current_rentals_resident.getD 0,
    server.current_rentals_running.getD 0⟩

/-- One entry of `changes_lines` (source lines 249-283), as the values
interpolated into the corresponding f-string.  `rental.rocket` is the
`p_rented_gpus < rented_gpus` choice of the 🚀/🛬 icon (line 251). -/
inductive ChangeLine where
  | rental (serverId : ℤ) (rocket : Bool) (rentedNow : Bool)
      (pRentedGpus rentedGpus numGpus : ℤ) (occupancy : String)
  | gpuCost (serverId : ℤ) (oldCost newCost : ℚ)
  | storageCost (serverId : ℤ) (oldCost newCost : ℚ)
  | minGpuCount (serverId : ℤ) (oldCount newCount : ℤ)
  | minBid (serverId : ℤ) (oldBid newBid : ℚ)
  | reports (serverId : ℤ) (oldReports newReports : ℤ)
  deriving DecidableEq

/-- The diff block of source lines 237-284 for a machine with a prior
snapshot entry `old` and current observation `cur`: each of the six `if`
statements sets `changes_detected` and appends one line.  The `p_*` reads
apply the source's `old_data.get(...) or default` coalescing. -/
def diffMachine (serverId num_gpus : ℤ) (old cur : MachineSnapshot) :
    Bool × List ChangeLine :=
  let p_listed_gpu_cost := pyOr old.listed_gpu_cost 0
  let p_listed_storage_cost := pyOr old.listed_storage_cost 0
  let p_rented := pyOrBool old.rented false
  let p_rented_gpus := pyOrInt old.rented_gpus 0
  let p_min_bid_price := pyOr old.min_bid_price 0
  let p_listed_min_gpu_count := pyOrInt old.listed_min_gpu_count 0
  let p_num_reports := pyOrInt old.num_reports 0
  let acc : Bool × List ChangeLine := (false, [])
  let acc :=
    if p_rented ≠ cur.rented ∨ p_rented_gpus ≠ cur.rented_gpus then
      (true, acc.2 ++ [ChangeLine.rental serverId (decide (p_rented_gpus < cur.rented_gpus))
        cur.rented p_rented_gpus cur.rented_gpus num_gpus cur.gpu_occupancy])
    else acc
  let acc :=
    if p_listed_gpu_cost ≠ cur.listed_gpu_cost then
      (true, acc.2 ++ [ChangeLine.gpuCost serverId p_listed_gpu_cost cur.listed_gpu_cost])
    else acc
  let acc :=
    if p_listed_storage_cost ≠ cur.listed_storage_cost then
      (true, acc.2 ++ [ChangeLine.storageCost serverId p_listed_storage_cost cur.listed_storage_cost])
    else acc
  let acc :=
    if p_listed_min_gpu_count ≠ cur.listed_min_gpu_count then
      (true, acc.2 ++ [ChangeLine.minGpuCount serverId p_listed_min_gpu_count cur.listed_min_gpu_count])
    else acc
  let acc :=
    if p_min_bid_price ≠ cur.min_bid_price then
      (true, acc.2 ++ [ChangeLine.minBid serverId p_min_bid_price cur.min_bid_price])
    else acc
  let acc :=
    if p_num_reports ≠ cur.num_reports then
      (true, acc.2 ++ [ChangeLine.reports serverId p_num_reports cur.num_reports])
    else acc
  acc

/-- `self.previous_status`: the JSON status dict, keyed by `str(server_id)`
in the source; since `str` is injective on the integer ids the key is
modelled as the id itself. -/
abbrev StatusMap := List (ℤ × MachineSnapshot)

/-- Dict lookup `previous_status.get(server_id)`. -/
def lookupStatus : StatusMap → ℤ → Option MachineSnapshot
  | [], _ => none
  | (k, v) :: rest, i => if k = i then some v else lookupStatus rest i

/-- Dict assignment `previous_status[server_id] = {...}`: replace the
binding if the key exists, else append. -/
def insertStatus : StatusMap → ℤ → MachineSnapshot → StatusMap
  | [], k, v => [(k, v)]
  | (k', v') :: rest, k, v =>
    if k' = k then (k, v) :: rest else (k', v') :: insertStatus rest k v

/-- The mutable account-level state threaded through the `for server in
servers` loop of `process_account`: `previous_status`, `changes_detected`,
`changes_lines`, `account_lines`. -/
structure LoopState where
  status : StatusMap
  changes : Bool
  changeLines : List ChangeLine
  accountLines : List ServerLine
  deriving DecidableEq

/-- The loop body for one non-skipped server (source lines 202-301):
compute the observation, diff it against the prior entry (a machine with no
prior entry sets `changes_detected` with no line, lines 285-286), overwrite
the snapshot entry, append the status line. -/
def processBody (st : LoopState) (server : RawServer) : LoopState :=
  let cur := obsOf server
  let dres :=
    match lookupStatus st.status server.id with
    | some old => diffMachine server.id (server.num_gpus.getD 0) old cur
    | none => (true, [])
  ⟨insertStatus st.status server.id cur,
    st.changes || dres.1,
    st.changeLines ++ dres.2,
    st.accountLines ++ [serverLineOf server]⟩

/-- One iteration of `for server in servers` including the skip guard of
source lines 198-200: `if not all_server and int(server_id) not in
server_ids: continue`. -/
def processServer (allServer : Bool) (serverIds : List ℤ) (st : LoopState)
    (server : RawServer) : LoopState :=
  if !allServer && !(serverIds.contains server.id) then st
  else processBody st server

/-- A server is monitored when `-1` is configured (`all_server`, line 195)
or its id is in the configured list (line 199). -/
def isMonitored (serverIds : List ℤ) (server : RawServer) : Bool :=
  serverIds.contains (-1) || serverIds.contains server.id

/-- Whether processing `server` against snapshot map `m` sets
`changes_detected`: `True` for a machine with no prior entry (lines
285-286), else the disjunction of the six field comparisons (lines
237-283). -/
def changedAt (m : StatusMap) (server : RawServer) : Bool :=
  match lookupStatus m server.id with
  | none => true
  | some old => (diffMachine server.id (server.num_gpus.getD 0) old (obsOf server)).1

/-- Outcome of one HTTP request inside `call_vast_api` (source lines
139-151): a parsed JSON payload, or one of the three handled error kinds
(`aiohttp.ClientError`, `json.JSONDecodeError`, any other `Exception`). -/
inductive ApiResponse (α : Type) where
  | success (data : α)
  | clientError
  | invalidJson
  | otherError
  deriving DecidableEq

/-- `call_vast_api` (source lines 135-151): return the parsed JSON on
success; every handled error is logged and the empty dict `{}` (here
`emptyDict`) is returned. -/
def call_vast_api {α : Type} (emptyDict : α) : ApiResponse α → α
  | .success d => d
  | .clientError => emptyDict
  | .invalidJson => emptyDict
  | .otherError => emptyDict

/-- How many HTTP requests one `call_vast_api` invocation issues: the body
performs a single `session.get` (line 140) and contains no retry loop, so
the count is 1 whatever the outcome. -/
def call_vast_api_attempts {α : Type} : ApiResponse α → ℕ
  | .success _ => 1
  | .clientError => 1
  | .invalidJson => 1
  | .otherError => 1

/-- The field of the `/users/current` payload that the script reads. -/
structure UserDict where
  balance : Option ℚ := none
  deriving DecidableEq

/-- The field of the `/user/earnings` payload that the script reads. -/
structure EarningsDict where
  machine_earnings : Option ℚ := none
  deriving DecidableEq

/-- The field of the `/machines` payload that the script reads. -/
structure MachinesDict where
  machines : Option (List RawServer) := none
  deriving DecidableEq

/-- `get_current_user` (source lines 159-162). -/
def get_current_user (r : ApiResponse UserDict) : UserDict :=
  call_vast_api ⟨none⟩ r

/-- `get_user_earnings` (source lines 164-167). -/
def get_user_earnings (r : ApiResponse EarningsDict) : EarningsDict :=
  call_vast_api ⟨none⟩ r

/-- `get_server_status` (source lines 153-157): `data.get("machines", [])`
on the `call_vast_api` result. -/
def get_server_status (r : ApiResponse MachinesDict) : List RawServer :=
  (call_vast_api ⟨none⟩ r).machines.getD []

/-- The three API endpoints the script requests (lines 156, 162, 167). -/
inductive Endpoint where
  | usersCurrent
  | userEarnings
  | machines
  deriving DecidableEq

/-- The network, as responses per bearer-token key for each endpoint. -/
structure ApiOracle where
  userResp : String → ApiResponse UserDict
  earningsResp : String → ApiResponse EarningsDict
  machinesResp : String → ApiResponse MachinesDict

/-- One account entry of `config.json` (read in lines 183-185): required
`api_key` and `machine_ids`, optional `notify` list. -/
structure AccountData where
  api_key : String
  machine_ids : List ℤ
  notify : Option (List String) := none
  deriving DecidableEq

/-- The notification email built in lines 306-322, as the data interpolated
into `message_body`: the header `👤 name 💰 balance 🏦 machine_earnings`
followed by `changes_lines` and `account_lines`. -/
structure Email where
  account : String
  balance : ℚ
  machineEarnings : ℚ
  changeLines : List ChangeLine
  serverLines : List ServerLine
  recipients : List String
  deriving DecidableEq

/-- Result of one `process_account` call: the API requests issued (endpoint
and bearer key), the updated `self.previous_status`, and the email sent (or
`none` for the `No changes detected` branch). -/
structure ProcResult where
  requests : List (Endpoint × String)
  newStatus : StatusMap
  email : Option Email
  deriving DecidableEq

/-- `process_account` (source lines 169-324).  `prev` is
`self.previous_status` on entry; `first_run` is its emptiness test of line
175.  The environment fallback `[EMAIL_TO]` of line 184 is plumbing and the
`notify` default is modelled as the empty recipient list. -/
def processAccount (prev : StatusMap) (account_name : String)
    (account_data : AccountData) (api : ApiOracle) : ProcResult :=
  let first_run := prev.isEmpty
  let api_key := account_data.api_key
  let notify_emails := account_data.notify.getD []
  let server_ids := account_data.machine_ids
  let user := get_current_user (api.userResp api_key)
  let balance := user.balance.getD 0
  let earnings := get_user_earnings (api.earningsResp api_key)
  let machine_earnings := pyOr (earnings.machine_earnings.getD 0) 0
  let servers := get_server_status (api.machinesResp api_key)
  let all_server := server_ids.contains (-1)
  let final := servers.foldl (processServer all_server server_ids) ⟨prev, false, [], []⟩
  let email :=
    if (first_run || final.changes) && !final.accountLines.isEmpty then
      some ⟨account_name, balance, machine_earnings, final.changeLines,
        final.accountLines, notify_emails⟩
    else none
  ⟨[(Endpoint.usersCurrent, api_key), (Endpoint.userEarnings, api_key),
      (Endpoint.machines, api_key)],
    final.status, email⟩

/-- The two files the loop reads each iteration: `status.json` and
`config.json`, modelled as their parsed contents (`load_json` maps a
missing or corrupt file to `{}`, i.e. the empty list here). -/
structure FileSystem where
  statusFile : StatusMap
  configFile : List (String × AccountData)
  deriving DecidableEq

/-- The bot's in-memory fields `self.previous_status` and
`self.vast_accounts`. -/
structure BotState where
  previous_status : StatusMap
  vast_accounts : List (String × AccountData)
  deriving DecidableEq

/-- Result of one pass of the `while` body of `monitor_servers` (source
lines 329-341): final in-memory state, files after the `save_json` of line
337, and per-account notices `(account_name, email-or-none)` in processing
order. -/
structure IterResult where
  bot : BotState
  fileOut : FileSystem
  notices : List (String × Option Email)
  deriving DecidableEq

/-- Fold step for `for account_name, account_data in
self.vast_accounts.items()` (lines 334-335): thread `previous_status`
through `process_account` and record the notice. -/
def accountStep (api : ApiOracle) (acc : StatusMap × List (String × Option Email))
    (entry : String × AccountData) : StatusMap × List (String × Option Email) :=
  let r := processAccount acc.1 entry.1 entry.2 api
  (r.newStatus, acc.2 ++ [(entry.1, r.email)])

/-- One pass of the `while` body of `monitor_servers` (source lines
329-341): reload both files into the bot (lines 331-332), process every
configured account in order (lines 334-335), write the whole snapshot map
back to `status.json` (line 337). -/
def monitorIteration (bot : BotState) (fs : FileSystem) (api : ApiOracle) :
    IterResult :=
  let bot1 : BotState :=
    { bot with previous_status := fs.statusFile, vast_accounts := fs.configFile }
  let res := bot1.vast_accounts.foldl (accountStep api) (bot1.previous_status, [])
  ⟨⟨res.1, bot1.vast_accounts⟩, ⟨res.1, fs.configFile⟩, res.2⟩

/-- Observable events of the poll loop: a pass over all accounts, a full
`CHECK_INTERVAL`-second wait (the `asyncio.TimeoutError` branch of lines
342-347), or an early wake because the shutdown event was set during the
wait. -/
inductive LoopEvent where
  | iteration
  | fullWait (seconds : ℕ)
  | earlyWake
  deriving DecidableEq

/-- The control flow of `monitor_servers` (source lines 326-349) as an
event trace.  `shutdownSet` is `self.shutdown_event.is_set()` at the top of
the `while`; `sigs` lists, for each wait the environment allows us to
observe, whether the shutdown signal arrives during (or before) that wait.
`asyncio.wait_for(..., timeout=CHECK_INTERVAL)` either times out after the
full `checkInterval` seconds and continues, or returns early on the signal,
after which the `while` condition terminates the loop. -/
def monitorLoop (checkInterval : ℕ) : Bool → List Bool → List LoopEvent
  | true, _ => []
  | false, [] => []
  | false, sig :: rest =>
    LoopEvent.iteration ::
      (if sig then [LoopEvent.earlyWake]
       else LoopEvent.fullWait checkInterval :: monitorLoop checkInterval false rest)

/-- Transport outcome of one SMTP conversation inside `send_email`. -/
inductive SmtpOutcome where
  | delivered
  | failure (msg : String)
  deriving DecidableEq

/-- `send_email` (source lines 64-102): the whole body is wrapped in
`try/except Exception`, which logs and returns normally, so the caller
never sees an exception whatever the transport does. -/
def send_email (outcome : SmtpOutcome) : Except String Unit :=
  match outcome with
  | .delivered => Except.ok ()
  | .failure _ => Except.ok ()

/-- The last server in the list with the given id, if any (later
occurrences overwrite earlier dict entries). -/
def lastObsFor : List RawServer → ℤ → Option RawServer
  | [], _ => none
  | s :: rest, i =>
    match lastObsFor rest i with
    | some r => some r
    | none => if s.id = i then some s else none

/-- The servers of one account's `/machines` response that pass the skip
guard of lines 198-200. -/
def monitoredServers (api : ApiOracle) (a : AccountData) : List RawServer :=
  (get_server_status (api.machinesResp a.api_key)).filter
    (fun s => isMonitored a.machine_ids s)

/-- All monitored servers of a list of configured accounts, in processing
order. -/
def monitoredOfAccounts (api : ApiOracle) :
    List (String × AccountData) → List RawServer
  | [] => []
  | e :: rest => monitoredServers api e.2 ++ monitoredOfAccounts api rest

/-- All monitored servers of one loop iteration. -/
def allMonitoredServers (fs : FileSystem) (api : ApiOracle) : List RawServer :=
  monitoredOfAccounts api fs.configFile

/-- The `for server in servers` loop of `process_account` as a fold: the
final `LoopState` after lines 197-301. -/
def accountFold (prev : StatusMap) (acct : AccountData) (api : ApiOracle) :
    LoopState :=
  (get_server_status (api.machinesResp acct.api_key)).foldl
    (processServer (acct.machine_ids.contains (-1)) acct.machine_ids)
    ⟨prev, false, [], []⟩

/-! ### Concrete data used by witnesses and counterexamples -/

/-- A snapshot entry: rented, 1 of its GPUs taken, gpu cost 2, storage cost
1, min bid 1, min gpu count 1, no earnings, reliability 1, no reports. -/
def snapR0 : MachineSnapshot := ⟨true, 1, 2, 1, 1, 1, 0, 0, 1, 0, "DX"⟩

/-- `snapR0` with only the reliability field changed. -/
def snapR1 : MachineSnapshot := ⟨true, 1, 2, 1, 1, 1, 0, 0, 2, 0, "DX"⟩

/-- `snapR0` with only the gpu cost changed (prior price 3 instead of 2). -/
def snapOld : MachineSnapshot := ⟨true, 1, 3, 1, 1, 1, 0, 0, 1, 0, "DX"⟩

/-- A listed machine with id 5 whose observation is `snapR0`. -/
def serverW : RawServer :=
  ⟨5, some true, some 1, some 0, some 1, some 2, some 0, some 0, some "DX",
    some 0, some 1, some 2, some 1, some 1⟩

/-- An account monitoring all machines (`-1` sentinel). -/
def acctW : AccountData := ⟨"k1", [-1], none⟩

/-- Healthy API: balance 5, machine earnings 3, one machine `serverW`. -/
def apiW : ApiOracle :=
  ⟨fun _ => ApiResponse.success ⟨some 5⟩, fun _ => ApiResponse.success ⟨some 3⟩,
    fun _ => ApiResponse.success ⟨some [serverW]⟩⟩

/-- Healthy API whose machine list is empty. -/
def apiEmptyMachines : ApiOracle :=
  ⟨fun _ => ApiResponse.success ⟨some 5⟩, fun _ => ApiResponse.success ⟨some 3⟩,
    fun _ => ApiResponse.success ⟨some []⟩⟩

/-- API on which every request fails (one error of each handled kind). -/
def failingApi : ApiOracle :=
  ⟨fun _ => ApiResponse.clientError, fun _ => ApiResponse.invalidJson,
    fun _ => ApiResponse.otherError⟩

/-- The email `process_account` sends for `acctW` against `apiW` on a first
run. -/
def emailW : Email := ⟨"acct1", 5, 3, [], [serverLineOf serverW], []⟩

/-- Account-loop state with one prior entry for machine 5. -/
def stW : LoopState := ⟨[(5, snapOld)], false, [], []⟩

/-! ### Helper lemmas -/

theorem pyOr_zero (x : ℚ) : pyOr x 0 = x := by
  unfold pyOr; split <;> simp_all

theorem pyOrInt_zero (x : ℤ) : pyOrInt x 0 = x := by
  unfold pyOrInt; split <;> simp_all

theorem pyOrBool_false (b : Bool) : pyOrBool b false = b := by
  cases b <;> rfl

theorem pyOrStr_empty (s : String) : pyOrStr s "" = s := by
  unfold pyOrStr; split <;> simp_all

/-- The `changes_detected` contribution of the diff block is exactly the
disjunction of the six compared conditions; reliability, earnings and
occupancy are not among them. -/
theorem diffMachine_fst_iff (sid ng : ℤ) (old cur : MachineSnapshot) :
    (diffMachine sid ng old cur).1 = true ↔
      (old.rented ≠ cur.rented ∨ old.rented_gpus ≠ cur.rented_gpus ∨
       old.listed_gpu_cost ≠ cur.listed_gpu_cost ∨
       old.listed_storage_cost ≠ cur.listed_storage_cost ∨
       old.listed_min_gpu_count ≠ cur.listed_min_gpu_count ∨
       old.min_bid_price ≠ cur.min_bid_price ∨
       old.num_reports ≠ cur.num_reports) := by
  simp only [diffMachine, pyOr_zero, pyOrInt_zero, pyOrBool_false]
  split_ifs <;> simp_all

/-- The diff block appends at least one line exactly when one of the six
compared conditions holds. -/
theorem diffMachine_snd_iff (sid ng : ℤ) (old cur : MachineSnapshot) :
    (diffMachine sid ng old cur).2 ≠ [] ↔
      (old.rented ≠ cur.rented ∨ old.rented_gpus ≠ cur.rented_gpus ∨
       old.listed_gpu_cost ≠ cur.listed_gpu_cost ∨
       old.listed_storage_cost ≠ cur.listed_storage_cost ∨
       old.listed_min_gpu_count ≠ cur.listed_min_gpu_count ∨
       old.min_bid_price ≠ cur.min_bid_price ∨
       old.num_reports ≠ cur.num_reports) := by
  simp only [diffMachine, pyOr_zero, pyOrInt_zero, pyOrBool_false]
  split_ifs <;> simp_all

/-- Diffing an observation against the snapshot entry written from that
same observation detects nothing. -/
theorem diffMachine_self (sid ng : ℤ) (m : MachineSnapshot) :
    diffMachine sid ng m m = (false, []) := by
  simp [diffMachine, pyOr_zero, pyOrInt_zero, pyOrBool_false]

theorem processBody_status (st : LoopState) (s : RawServer) :
    (processBody st s).status = insertStatus st.status s.id (obsOf s) := rfl

theorem processBody_accountLines (st : LoopState) (s : RawServer) :
    (processBody st s).accountLines = st.accountLines ++ [serverLineOf s] := rfl

theorem processBody_changes (st : LoopState) (s : RawServer) :
    (processBody st s).changes = (st.changes || changedAt st.status s) := by
  unfold processBody changedAt
  cases lookupStatus st.status s.id <;> rfl

theorem processBody_changeLines (st : LoopState) (s : RawServer) :
    (processBody st s).changeLines = st.changeLines ++
      (match lookupStatus st.status s.id with
       | some old => diffMachine s.id (s.num_gpus.getD 0) old (obsOf s)
       | none => ((true : Bool), ([] : List ChangeLine))).2 := rfl

/-- The skip guard of lines 198-200 is the negation of `isMonitored`. -/
theorem processServer_eq (ids : List ℤ) (st : LoopState) (s : RawServer) :
    processServer (ids.contains (-1)) ids st s =
      if isMonitored ids s = true then processBody st s else st := by
  unfold processServer isMonitored
  cases h1 : ids.contains (-1) <;> cases h2 : ids.contains s.id <;> simp

theorem lookup_insert (m : StatusMap) (k : ℤ) (v : MachineSnapshot) (i : ℤ) :
    lookupStatus (insertStatus m k v) i =
      if k = i then some v else lookupStatus m i := by
  induction m with
  | nil => simp [insertStatus, lookupStatus]
  | cons hd tl ih =>
    obtain ⟨k', v'⟩ := hd
    by_cases h : k' = k <;> by_cases hk : k = i <;> by_cases hki : k' = i <;>
      simp_all [lookupStatus, insertStatus, ih]

theorem changedAt_insert_ne (m : StatusMap) (k : ℤ) (v : MachineSnapshot)
    (s : RawServer) (h : s.id ≠ k) :
    changedAt (insertStatus m k v) s = changedAt m s := by
  unfold changedAt
  rw [lookup_insert, if_neg (fun hk => h hk.symm)]

theorem any_congr_mem {α : Type} (l : List α) (p q : α → Bool)
    (h : ∀ a ∈ l, p a = q a) : l.any p = l.any q := by
  induction l with
  | nil => rfl
  | cons a t ih =>
    simp only [List.any_cons, h a (List.mem_cons_self a t)]
    rw [ih (fun b hb => h b (List.mem_cons_of_mem a hb))]

theorem foldl_processBody_accountLines (l : List RawServer) (st : LoopState) :
    (l.foldl processBody st).accountLines = st.accountLines ++ l.map serverLineOf := by
  induction l generalizing st with
  | nil => simp
  | cons s rest ih =>
    rw [List.foldl_cons, ih, processBody_accountLines]
    simp

/-- With distinct monitored ids, the account-level `changes_detected` flag
is the disjunction over servers of the per-server change test against the
snapshot map as it was when the account started. -/
theorem foldl_processBody_changes (l : List RawServer) (st : LoopState)
    (h : (l.map RawServer.id).Nodup) :
    (l.foldl processBody st).changes =
      (st.changes || l.any (fun s => changedAt st.status s)) := by
  induction l generalizing st with
  | nil => simp
  | cons s rest ih =>
    simp only [List.map_cons, List.nodup_cons] at h
    obtain ⟨hnotin, hnodup⟩ := h
    rw [List.foldl_cons, ih _ hnodup, processBody_changes]
    have hcg : rest.any (fun r => changedAt (processBody st s).status r) =
        rest.any (fun r => changedAt st.status r) := by
      apply any_congr_mem
      intro r hr
      rw [processBody_status]
      refine changedAt_insert_ne _ _ _ _ (fun he => hnotin ?_)
      rw [← he]
      exact List.mem_map_of_mem RawServer.id hr
    rw [hcg, List.any_cons, Bool.or_assoc]

theorem lastObsFor_append (l₁ l₂ : List RawServer) (i : ℤ) :
    lastObsFor (l₁ ++ l₂) i =
      match lastObsFor l₂ i with
      | some r => some r
      | none => lastObsFor l₁ i := by
  induction l₁ with
  | nil =>
    simp only [List.nil_append]
    cases lastObsFor l₂ i <;> rfl
  | cons s rest ih =>
    have hc : lastObsFor ((s :: rest) ++ l₂) i =
        match lastObsFor (rest ++ l₂) i with
        | some r => some r
        | none => if s.id = i then some s else none := rfl
    rw [hc, ih]
    cases h : lastObsFor l₂ i <;> cases h2 : lastObsFor rest i <;>
      simp [lastObsFor, h, h2]

/-- After the server loop, the snapshot entry for each id is the
observation of its last monitored occurrence; ids never processed keep
their prior entry. -/
theorem foldl_processBody_lookup (l : List RawServer) (st : LoopState) (i : ℤ) :
    lookupStatus (l.foldl processBody st).status i =
      match lastObsFor l i with
      | some s => some (obsOf s)
      | none => lookupStatus st.status i := by
  induction l generalizing st with
  | nil => rfl
  | cons s rest ih =>
    rw [List.foldl_cons, ih]
    cases h : lastObsFor rest i with
    | some r => simp [lastObsFor, h]
    | none =>
      simp only [lastObsFor, h]
      rw [processBody_status, lookup_insert]
      by_cases hid : s.id = i <;> simp [hid]

/-- The guarded fold over all returned servers equals the unguarded fold
over the monitored ones. -/
theorem foldl_processServer_filter (ids : List ℤ) (l : List RawServer)
    (st : LoopState) :
    l.foldl (processServer (ids.contains (-1)) ids) st =
      (l.filter (fun s => isMonitored ids s)).foldl processBody st := by
  induction l generalizing st with
  | nil => rfl
  | cons s rest ih =>
    rw [List.foldl_cons, processServer_eq]
    by_cases h : isMonitored ids s = true
    · rw [if_pos h, List.filter_cons_of_pos h, List.foldl_cons, ih]
    · rw [if_neg h, List.filter_cons_of_neg h, ih]

theorem isSome_ite {α : Type} (c : Prop) [Decidable c] (x : α) :
    (if c then some x else none).isSome = true ↔ c := by
  split <;> simp_all

/-- `process_account` deconstructed: its email field as written in lines
303-324. -/
theorem processAccount_email_eq (prev : StatusMap) (nm : String)
    (acct : AccountData) (api : ApiOracle) :
    (processAccount prev nm acct api).email =
      (if (prev.isEmpty || (accountFold prev acct api).changes)
          && !(accountFold prev acct api).accountLines.isEmpty then
        some ⟨nm, (get_current_user (api.userResp acct.api_key)).balance.getD 0,
          pyOr ((get_user_earnings (api.earningsResp acct.api_key)).machine_earnings.getD 0) 0,
          (accountFold prev acct api).changeLines,
          (accountFold prev acct api).accountLines, acct.notify.getD []⟩
      else none) := rfl

/-- `process_account` deconstructed: its snapshot-map output is the final
loop state's map. -/
theorem processAccount_newStatus_eq (prev : StatusMap) (nm : String)
    (acct : AccountData) (api : ApiOracle) :
    (processAccount prev nm acct api).newStatus = (accountFold prev acct api).status := rfl

theorem accountFold_eq_filtered (prev : StatusMap) (acct : AccountData)
    (api : ApiOracle) :
    accountFold prev acct api =
      (monitoredServers api acct).foldl processBody ⟨prev, false, [], []⟩ :=
  foldl_processServer_filter acct.machine_ids
    (get_server_status (api.machinesResp acct.api_key)) ⟨prev, false, [], []⟩

theorem accountFold_accountLines (prev : StatusMap) (acct : AccountData)
    (api : ApiOracle) :
    (accountFold prev acct api).accountLines =
      (monitoredServers api acct).map serverLineOf := by
  rw [accountFold_eq_filtered, foldl_processBody_accountLines]
  rfl

theorem accountFold_changes (prev : StatusMap) (acct : AccountData)
    (api : ApiOracle) (h : ((monitoredServers api acct).map RawServer.id).Nodup) :
    (accountFold prev acct api).changes =
      (monitoredServers api acct).any (fun s => changedAt prev s) := by
  rw [accountFold_eq_filtered, foldl_processBody_changes _ _ h]
  rfl

/-- After one `process_account`, the snapshot entry for every id is the
observation of its last monitored occurrence in that account's machine
list; other ids keep their prior entry. -/
theorem processAccount_newStatus_lookup (prev : StatusMap) (nm : String)
    (acct : AccountData) (api : ApiOracle) (i : ℤ) :
    lookupStatus (processAccount prev nm acct api).newStatus i =
      match lastObsFor (monitoredServers api acct) i with
      | some s => some (obsOf s)
      | none => lookupStatus prev i := by
  rw [processAccount_newStatus_eq, accountFold_eq_filtered, foldl_processBody_lookup]

theorem foldl_accountStep_notices (api : ApiOracle)
    (accounts : List (String × AccountData)) (st : StatusMap)
    (ns : List (String × Option Email)) :
    ((accounts.foldl (accountStep api) (st, ns)).2).map Prod.fst =
      ns.map Prod.fst ++ accounts.map Prod.fst := by
  induction accounts generalizing st ns with
  | nil => simp
  | cons e rest ih =>
    rw [List.foldl_cons,
      show accountStep api (st, ns) e =
        ((processAccount st e.1 e.2 api).newStatus,
         ns ++ [(e.1, (processAccount st e.1 e.2 api).email)]) from rfl,
      ih]
    simp

/-- Snapshot-map characterization across the whole account fold of one
iteration. -/
theorem foldl_accountStep_lookup (api : ApiOracle)
    (accounts : List (String × AccountData)) (st : StatusMap)
    (ns : List (String × Option Email)) (i : ℤ) :
    lookupStatus ((accounts.foldl (accountStep api) (st, ns)).1) i =
      match lastObsFor (monitoredOfAccounts api accounts) i with
      | some s => some (obsOf s)
      | none => lookupStatus st i := by
  induction accounts generalizing st ns with
  | nil => rfl
  | cons e rest ih =>
    rw [List.foldl_cons,
      show accountStep api (st, ns) e =
        ((processAccount st e.1 e.2 api).newStatus,
         ns ++ [(e.1, (processAccount st e.1 e.2 api).email)]) from rfl,
      ih,
      show monitoredOfAccounts api (e :: rest) =
        monitoredServers api e.2 ++ monitoredOfAccounts api rest from rfl,
      lastObsFor_append]
    cases h : lastObsFor (monitoredOfAccounts api rest) i with
    | some r => rfl
    | none => rw [processAccount_newStatus_lookup]

/-! ### Claim theorems -/

/-- C1 (amended): for a monitored machine with a prior snapshot entry, the
server loop sets the changes flag and appends change lines exactly as the
diff computes them, and the diff fires exactly when one of the compared
fields (rented, rented_gpus, listed_gpu_cost, listed_storage_cost,
listed_min_gpu_count, min_bid_price, num_reports) differs from the prior
snapshot.  Reliability, earnings and occupancy are stored but not
compared. -/
theorem claim_C1_amended (ids : List ℤ) (st : LoopState) (server : RawServer)
    (old : MachineSnapshot) (hmon : isMonitored ids server = true)
    (hold : lookupStatus st.status server.id = some old) :
    (processServer (ids.contains (-1)) ids st server).changes
        = (st.changes
            || (diffMachine server.id (server.num_gpus.getD 0) old (obsOf server)).1)
    ∧ (processServer (ids.contains (-1)) ids st server).changeLines
        = st.changeLines
            ++ (diffMachine server.id (server.num_gpus.getD 0) old (obsOf server)).2
    ∧ (((diffMachine server.id (server.num_gpus.getD 0) old (obsOf server)).1 = true
          ∧ (diffMachine server.id (server.num_gpus.getD 0) old (obsOf server)).2 ≠ [])
        ↔ (old.rented ≠ (obsOf server).rented
            ∨ old.rented_gpus ≠ (obsOf server).rented_gpus
            ∨ old.listed_gpu_cost ≠ (obsOf server).listed_gpu_cost
            ∨ old.listed_storage_cost ≠ (obsOf server).listed_storage_cost
            ∨ old.listed_min_gpu_count ≠ (obsOf server).listed_min_gpu_count
            ∨ old.min_bid_price ≠ (obsOf server).min_bid_price
            ∨ old.num_reports ≠ (obsOf server).num_reports)) := by
  rw [processServer_eq, if_pos hmon]
  refine ⟨?_, ?_, ?_⟩
  · rw [processBody_changes]
    unfold changedAt
    rw [hold]
  · rw [processBody_changeLines, hold]
  · simp [diffMachine_fst_iff, diffMachine_snd_iff]

/-- A machine whose observation is `snapR1` (differs from `snapR0` only in
reliability). -/
def serverR : RawServer :=
  ⟨7, some true, some 1, some 0, some 2, some 4, some 0, some 0, some "DX",
    some 0, some 1, some 2, some 1, some 1⟩

/-- C1 (counterexample to the claim as stated): machine 7 has a prior
snapshot entry `snapR0`; its current observation differs from it only in
the reliability field, yet the loop body neither sets the changes flag nor
appends any change line — reliability is not among the compared fields. -/
theorem claim_C1_counterexample :
    (obsOf serverR).reliability ≠ snapR0.reliability
    ∧ (obsOf serverR).rented = snapR0.rented
    ∧ (obsOf serverR).rented_gpus = snapR0.rented_gpus
    ∧ (obsOf serverR).listed_gpu_cost = snapR0.listed_gpu_cost
    ∧ (obsOf serverR).listed_storage_cost = snapR0.listed_storage_cost
    ∧ (obsOf serverR).listed_min_gpu_count = snapR0.listed_min_gpu_count
    ∧ (obsOf serverR).min_bid_price = snapR0.min_bid_price
    ∧ (obsOf serverR).num_reports = snapR0.num_reports
    ∧ (processBody ⟨[(7, snapR0)], false, [], []⟩ serverR).changes = false
    ∧ (processBody ⟨[(7, snapR0)], false, [], []⟩ serverR).changeLines = [] := by
  decide

/-- C1 witness: the amended theorem instantiated at machine 5 with prior
entry `snapOld`. -/
theorem claim_C1_witness :
    (isMonitored acctW.machine_ids serverW = true
      ∧ lookupStatus stW.status serverW.id = some snapOld)
    ∧ ((processServer (acctW.machine_ids.contains (-1)) acctW.machine_ids stW serverW).changes
        = (stW.changes
            || (diffMachine serverW.id (serverW.num_gpus.getD 0) snapOld (obsOf serverW)).1)
      ∧ (processServer (acctW.machine_ids.contains (-1)) acctW.machine_ids stW serverW).changeLines
        = stW.changeLines
            ++ (diffMachine serverW.id (serverW.num_gpus.getD 0) snapOld (obsOf serverW)).2
      ∧ (((diffMachine serverW.id (serverW.num_gpus.getD 0) snapOld (obsOf serverW)).1 = true
            ∧ (diffMachine serverW.id (serverW.num_gpus.getD 0) snapOld (obsOf serverW)).2 ≠ [])
          ↔ (snapOld.rented ≠ (obsOf serverW).rented
              ∨ snapOld.rented_gpus ≠ (obsOf serverW).rented_gpus
              ∨ snapOld.listed_gpu_cost ≠ (obsOf serverW).listed_gpu_cost
              ∨ snapOld.listed_storage_cost ≠ (obsOf serverW).listed_storage_cost
              ∨ snapOld.listed_min_gpu_count ≠ (obsOf serverW).listed_min_gpu_count
              ∨ snapOld.min_bid_price ≠ (obsOf serverW).min_bid_price
              ∨ snapOld.num_reports ≠ (obsOf serverW).num_reports))) :=
  ⟨⟨by decide, by decide⟩,
    claim_C1_amended acctW.machine_ids stW serverW snapOld (by decide) (by decide)⟩

theorem mem_monitoredServers (api : ApiOracle) (acct : AccountData)
    (s : RawServer) :
    s ∈ monitoredServers api acct ↔
      s ∈ get_server_status (api.machinesResp acct.api_key)
        ∧ isMonitored acct.machine_ids s = true := List.mem_filter

/-- C2 (amended): with distinct monitored ids, `process_account` sends an
email iff (the in-memory snapshot map was empty on entry, or some
monitored returned machine is new or differs in a compared field) and at
least one monitored machine was returned; in particular no email is sent
when the monitored machine list is empty, even on a first run. -/
theorem claim_C2_amended (prev : StatusMap) (nm : String) (acct : AccountData)
    (api : ApiOracle)
    (h : ((monitoredServers api acct).map RawServer.id).Nodup) :
    (processAccount prev nm acct api).email.isSome = true ↔
      ((prev = []
          ∨ ∃ s ∈ get_server_status (api.machinesResp acct.api_key),
              isMonitored acct.machine_ids s = true ∧ changedAt prev s = true)
        ∧ ∃ s ∈ get_server_status (api.machinesResp acct.api_key),
            isMonitored acct.machine_ids s = true) := by
  have hne : (¬ (monitoredServers api acct) = []) ↔
      ∃ s ∈ get_server_status (api.machinesResp acct.api_key),
        isMonitored acct.machine_ids s = true := by
    unfold monitoredServers
    rw [List.filter_eq_nil_iff]
    push_neg
    simp
  rw [processAccount_email_eq, isSome_ite, accountFold_changes prev acct api h,
    accountFold_accountLines]
  constructor
  · intro hb
    obtain ⟨h1, h2⟩ := (Bool.and_eq_true _ _).mp hb
    constructor
    · rcases (Bool.or_eq_true _ _).mp h1 with hp | hq
      · exact Or.inl (List.isEmpty_iff.mp hp)
      · obtain ⟨s, hs, hcs⟩ := List.any_eq_true.mp hq
        obtain ⟨hsmem, hsmon⟩ := (mem_monitoredServers api acct s).mp hs
        exact Or.inr ⟨s, hsmem, hsmon, hcs⟩
    · apply hne.mp
      intro hnil
      rw [hnil] at h2
      simp at h2
  · rintro ⟨hor, hex⟩
    apply (Bool.and_eq_true _ _).mpr
    constructor
    · apply (Bool.or_eq_true _ _).mpr
      rcases hor with hp | ⟨s, hsmem, hsmon, hcs⟩
      · exact Or.inl (List.isEmpty_iff.mpr hp)
      · exact Or.inr (List.any_eq_true.mpr
          ⟨s, (mem_monitoredServers api acct s).mpr ⟨hsmem, hsmon⟩, hcs⟩)
    · have hmne : ¬ (monitoredServers api acct) = [] := hne.mpr hex
      cases hm : monitoredServers api acct with
      | nil => exact absurd hm hmne
      | cons hd tl => rfl

/-- C2 (counterexample to the claim as stated): on a first run (empty
snapshot map) against an API returning an empty machine list, the claim
says an email is sent, but `process_account` sends none because
`account_lines` is empty (line 306). -/
theorem claim_C2_counterexample :
    (([] : StatusMap).isEmpty = true)
    ∧ (processAccount [] "acct1" acctW apiEmptyMachines).email = none := by
  decide

/-- C2 witness: the amended theorem instantiated at a prior map holding
machine 5 with a different gpu cost, so an email is sent. -/
theorem claim_C2_witness :
    ((monitoredServers apiW acctW).map RawServer.id).Nodup
    ∧ ((processAccount [(5, snapOld)] "acct1" acctW apiW).email.isSome = true ↔
        (([(5, snapOld)] : StatusMap) = []
            ∨ ∃ s ∈ get_server_status (apiW.machinesResp acctW.api_key),
                isMonitored acctW.machine_ids s = true
                ∧ changedAt [(5, snapOld)] s = true)
          ∧ ∃ s ∈ get_server_status (apiW.machinesResp acctW.api_key),
              isMonitored acctW.machine_ids s = true) :=
  ⟨by decide, claim_C2_amended [(5, snapOld)] "acct1" acctW apiW (by decide)⟩

/-- C3 (counterexample to the claim as stated): a failing request is not
retried — `call_vast_api` issues exactly one attempt and returns the empty
dict, so no second attempt (`2 ≤ attempts`) ever happens. -/
theorem claim_C3_counterexample :
    call_vast_api_attempts (ApiResponse.clientError : ApiResponse MachinesDict) = 1
    ∧ ¬ 2 ≤ call_vast_api_attempts (ApiResponse.clientError : ApiResponse MachinesDict)
    ∧ call_vast_api (⟨none⟩ : MachinesDict) ApiResponse.clientError = ⟨none⟩ := by
  decide

/-- C3 (amended): there is no retry inside `call_vast_api`: every
invocation makes exactly one attempt whatever the outcome, a failed call
returns the empty dict immediately, and the `RETRY_TIMEOUT = 15` constant
exists but is referenced nowhere; a failed request is only repeated by the
next poll iteration. -/
theorem claim_C3_amended :
    (∀ (r : ApiResponse MachinesDict), call_vast_api_attempts r = 1)
    ∧ (∀ (r : ApiResponse UserDict), call_vast_api_attempts r = 1)
    ∧ (∀ (r : ApiResponse EarningsDict), call_vast_api_attempts r = 1)
    ∧ get_server_status ApiResponse.clientError = []
    ∧ get_current_user ApiResponse.clientError = ⟨none⟩
    ∧ get_user_earnings ApiResponse.clientError = ⟨none⟩
    ∧ RETRY_TIMEOUT = 15 := by
  refine ⟨fun r => ?_, fun r => ?_, fun r => ?_, rfl, rfl, rfl, rfl⟩ <;>
    cases r <;> rfl

/-- C4: the status file written at the end of an iteration holds, for each
machine id, exactly the snapshot built from its last monitored observation
of that iteration (the eleven fields of `MachineSnapshot`), ids never
processed keeping their prior entry; and the written file equals the whole
in-memory map. -/
theorem claim_C4 :
    (∀ (bot : BotState) (fs : FileSystem) (api : ApiOracle) (i : ℤ),
      lookupStatus (monitorIteration bot fs api).fileOut.statusFile i =
        match lastObsFor (allMonitoredServers fs api) i with
        | some s => some (obsOf s)
        | none => lookupStatus fs.statusFile i)
    ∧ (∀ (bot : BotState) (fs : FileSystem) (api : ApiOracle),
        (monitorIteration bot fs api).fileOut.statusFile =
          (monitorIteration bot fs api).bot.previous_status) := by
  constructor
  · intro bot fs api i
    exact foldl_accountStep_lookup api fs.configFile fs.statusFile [] i
  · intro bot fs api
    rfl

/-- C5: one loop iteration depends only on the files read at its start —
any two in-memory states produce identical results — and it processes
exactly the configured accounts in order, reloading the config into the
bot. -/
theorem claim_C5 :
    (∀ (bot bot' : BotState) (fs : FileSystem) (api : ApiOracle),
      monitorIteration bot fs api = monitorIteration bot' fs api)
    ∧ (∀ (bot : BotState) (fs : FileSystem) (api : ApiOracle),
      ((monitorIteration bot fs api).notices).map Prod.fst = fs.configFile.map Prod.fst
      ∧ (monitorIteration bot fs api).bot.vast_accounts = fs.configFile) := by
  constructor
  · intro bot bot' fs api
    rfl
  · intro bot fs api
    refine ⟨?_, rfl⟩
    show ((fs.configFile.foldl (accountStep api) (fs.statusFile, [])).2).map Prod.fst
      = fs.configFile.map Prod.fst
    rw [foldl_accountStep_notices]
    simp

theorem monitorLoop_after_earlyWake (N : ℕ) (sigs : List Bool) :
    ∀ (b : Bool) (l₁ l₂ : List LoopEvent),
      monitorLoop N b sigs = l₁ ++ LoopEvent.earlyWake :: l₂ → l₂ = [] := by
  induction sigs with
  | nil =>
    intro b l₁ l₂ h
    cases b
    case false =>
      rw [show monitorLoop N false [] = [] from rfl] at h
      simp at h
    case true =>
      rw [show monitorLoop N true [] = [] from rfl] at h
      simp at h
  | cons sig rest ih =>
    intro b l₁ l₂ h
    cases b
    case true =>
      rw [show monitorLoop N true (sig :: rest) = [] from rfl] at h
      simp at h
    case false =>
      cases sig
      case true =>
        rw [show monitorLoop N false (true :: rest) =
          [LoopEvent.iteration, LoopEvent.earlyWake] from rfl] at h
        rcases l₁ with _ | ⟨a, _ | ⟨a2, t⟩⟩ <;> simp_all
      case false =>
        rw [show monitorLoop N false (false :: rest) =
          LoopEvent.iteration :: LoopEvent.fullWait N :: monitorLoop N false rest
          from rfl] at h
        rcases l₁ with _ | ⟨a, _ | ⟨a2, t⟩⟩
        · simp at h
        · simp at h
        · simp only [List.cons_append, List.cons.injEq] at h
          exact ih false t l₂ h.2.2

theorem monitorLoop_wait_before_iteration (N : ℕ) (sigs : List Bool) :
    ∀ (b : Bool) (l₁ : List LoopEvent) (e : LoopEvent) (l₂ : List LoopEvent),
      monitorLoop N b sigs = l₁ ++ e :: LoopEvent.iteration :: l₂ →
        e = LoopEvent.fullWait N := by
  induction sigs with
  | nil =>
    intro b l₁ e l₂ h
    cases b
    case false =>
      rw [show monitorLoop N false [] = [] from rfl] at h
      simp at h
    case true =>
      rw [show monitorLoop N true [] = [] from rfl] at h
      simp at h
  | cons sig rest ih =>
    intro b l₁ e l₂ h
    cases b
    case true =>
      rw [show monitorLoop N true (sig :: rest) = [] from rfl] at h
      simp at h
    case false =>
      cases sig
      case true =>
        rw [show monitorLoop N false (true :: rest) =
          [LoopEvent.iteration, LoopEvent.earlyWake] from rfl] at h
        rcases l₁ with _ | ⟨a, _ | ⟨a2, t⟩⟩ <;> simp_all
      case false =>
        rw [show monitorLoop N false (false :: rest) =
          LoopEvent.iteration :: LoopEvent.fullWait N :: monitorLoop N false rest
          from rfl] at h
        rcases l₁ with _ | ⟨a, _ | ⟨a2, t⟩⟩
        · simp only [List.nil_append, List.cons.injEq] at h
          exact absurd h.2.1 (by simp)
        · simp only [List.cons_append, List.nil_append, List.cons.injEq] at h
          exact h.2.1.symm
        · simp only [List.cons_append, List.cons.injEq] at h
          exact ih false t e l₂ h.2.2

/-- C6: with the shutdown event set no iteration is ever started; every
early wake (shutdown arriving during the wait) ends the trace, so no
further iteration follows it; and any event immediately preceding an
iteration is a full wait of the configured interval. -/
theorem claim_C6 : ∀ (checkInterval : ℕ) (sigs : List Bool),
    monitorLoop checkInterval true sigs = []
    ∧ (∀ (b : Bool) (l₁ l₂ : List LoopEvent),
        monitorLoop checkInterval b sigs = l₁ ++ LoopEvent.earlyWake :: l₂ →
          l₂ = [])
    ∧ (∀ (b : Bool) (l₁ : List LoopEvent) (e : LoopEvent) (l₂ : List LoopEvent),
        monitorLoop checkInterval b sigs = l₁ ++ e :: LoopEvent.iteration :: l₂ →
          e = LoopEvent.fullWait checkInterval) := by
  intro N sigs
  exact ⟨by cases sigs <;> rfl, monitorLoop_after_earlyWake N sigs,
    monitorLoop_wait_before_iteration N sigs⟩

/-- C6 witness: the trace for two wait rounds (timeout, then shutdown)
instantiates the wait-before-iteration part. -/
theorem claim_C6_witness :
    (monitorLoop 300 false [false, true]
      = [LoopEvent.iteration]
          ++ LoopEvent.fullWait 300 :: LoopEvent.iteration :: [LoopEvent.earlyWake])
    ∧ LoopEvent.fullWait 300 = LoopEvent.fullWait 300 :=
  ⟨by decide, (claim_C6 300 [false, true]).2.2 false [LoopEvent.iteration]
    (LoopEvent.fullWait 300) [LoopEvent.earlyWake] (by decide)⟩

/-- C7: `process_account` issues exactly the three requests
`/users/current`, `/user/earnings`, `/machines` with the account's api
key, and any email it sends reports the fetched balance and machine
earnings (with their `get`/`or` defaults) for that account. -/
theorem claim_C7 (prev : StatusMap) (nm : String) (acct : AccountData)
    (api : ApiOracle) :
    (processAccount prev nm acct api).requests =
      [(Endpoint.usersCurrent, acct.api_key), (Endpoint.userEarnings, acct.api_key),
        (Endpoint.machines, acct.api_key)]
    ∧ ∀ (e : Email), (processAccount prev nm acct api).email = some e →
        e.account = nm
        ∧ e.balance = (get_current_user (api.userResp acct.api_key)).balance.getD 0
        ∧ e.machineEarnings =
            pyOr ((get_user_earnings (api.earningsResp acct.api_key)).machine_earnings.getD 0) 0 := by
  constructor
  · rfl
  · intro e he
    rw [processAccount_email_eq] at he
    split at he
    · injection he with he
      subst he
      exact ⟨rfl, rfl, rfl⟩
    · exact Option.noConfusion he

/-- C7 witness: against `apiW` (balance 5, earnings 3, one machine) the
first-run email is `emailW` and reports balance 5 and earnings 3. -/
theorem claim_C7_witness :
    (processAccount [] "acct1" acctW apiW).email = some emailW
    ∧ (emailW.account = "acct1"
      ∧ emailW.balance = (get_current_user (apiW.userResp acctW.api_key)).balance.getD 0
      ∧ emailW.machineEarnings =
          pyOr ((get_user_earnings (apiW.earningsResp acctW.api_key)).machine_earnings.getD 0) 0) :=
  ⟨by decide, (claim_C7 [] "acct1" acctW apiW).2 emailW (by decide)⟩

/-- C8: the guarded server loop equals the unguarded loop over the
monitored servers; a server is monitored whenever `-1` is configured, and
otherwise exactly when its id is configured; a non-monitored server leaves
the whole loop state (snapshot map, changes flag, lines) untouched. -/
theorem claim_C8 :
    (∀ (ids : List ℤ) (servers : List RawServer) (st : LoopState),
      servers.foldl (processServer (ids.contains (-1)) ids) st =
        (servers.filter (fun s => isMonitored ids s)).foldl processBody st)
    ∧ (∀ (ids : List ℤ) (s : RawServer),
        (ids.contains (-1) = true → isMonitored ids s = true)
        ∧ (ids.contains (-1) = false → isMonitored ids s = ids.contains s.id))
    ∧ (∀ (ids : List ℤ) (st : LoopState) (s : RawServer),
        isMonitored ids s = false →
          processServer (ids.contains (-1)) ids st s = st) := by
  refine ⟨foldl_processServer_filter, fun ids s => ⟨fun h => ?_, fun h => ?_⟩,
    fun ids st s h => ?_⟩
  · unfold isMonitored
    rw [h]
    rfl
  · unfold isMonitored
    rw [h]
    rfl
  · rw [processServer_eq]
    rw [if_neg (by simp [h])]

/-- C8 witness: with `machine_ids = [-1]` machine 5 is monitored; with
`machine_ids = [3]` it is monitored only per membership (here not), and
processing it leaves the loop state unchanged. -/
theorem claim_C8_witness :
    (([(-1 : ℤ)] : List ℤ).contains (-1) = true ∧ isMonitored [(-1 : ℤ)] serverW = true)
    ∧ (([(3 : ℤ)] : List ℤ).contains (-1) = false
        ∧ isMonitored [(3 : ℤ)] serverW = ([(3 : ℤ)] : List ℤ).contains serverW.id)
    ∧ (isMonitored [(3 : ℤ)] serverW = false
        ∧ processServer (([(3 : ℤ)] : List ℤ).contains (-1)) [(3 : ℤ)] stW serverW = stW) :=
  ⟨⟨by decide, (claim_C8.2.1 [(-1 : ℤ)] serverW).1 (by decide)⟩,
    ⟨by decide, (claim_C8.2.1 [(3 : ℤ)] serverW).2 (by decide)⟩,
    ⟨by decide, claim_C8.2.2 [(3 : ℤ)] stW serverW (by decide)⟩⟩

/-- C9: every handled error kind makes `call_vast_api` return the empty
dict, hence `get_server_status` the empty list, the balance and machine
earnings their 0 defaults; and with every request failing,
`process_account` still runs to completion, returning the snapshot map
unchanged and sending no email. -/
theorem claim_C9 :
    (∀ (α : Type) (emptyDict : α),
      call_vast_api emptyDict ApiResponse.clientError = emptyDict
      ∧ call_vast_api emptyDict ApiResponse.invalidJson = emptyDict
      ∧ call_vast_api emptyDict ApiResponse.otherError = emptyDict)
    ∧ get_server_status ApiResponse.clientError = []
    ∧ get_server_status ApiResponse.invalidJson = []
    ∧ get_server_status ApiResponse.otherError = []
    ∧ (get_current_user ApiResponse.clientError).balance.getD 0 = 0
    ∧ pyOr ((get_user_earnings ApiResponse.otherError).machine_earnings.getD 0) 0 = 0
    ∧ (∀ (prev : StatusMap) (nm : String) (acct : AccountData),
        processAccount prev nm acct failingApi =
          ⟨[(Endpoint.usersCurrent, acct.api_key), (Endpoint.userEarnings, acct.api_key),
              (Endpoint.machines, acct.api_key)], prev, none⟩) := by
  refine ⟨fun α e => ⟨rfl, rfl, rfl⟩, rfl, rfl, rfl, rfl,
    by simp [pyOr, get_user_earnings, call_vast_api], ?_⟩
  intro prev nm acct
  simp [processAccount, get_server_status, get_current_user, get_user_earnings,
    call_vast_api, failingApi]

/-- C10: the loop body overwrites the snapshot entry of every processed
machine unconditionally; re-diffing an unchanged observation against its
own stored snapshot detects nothing, so processing the same observation in
the next iteration yields no change flag and no lines; and `send_email`
returns normally whatever the SMTP transport does, so a failed
notification cannot make a change be reported twice. -/
theorem claim_C10 :
    (∀ (st : LoopState) (s : RawServer),
      (processBody st s).status = insertStatus st.status s.id (obsOf s))
    ∧ (∀ (sid ng : ℤ) (m : MachineSnapshot), diffMachine sid ng m m = (false, []))
    ∧ (∀ (outcome : SmtpOutcome), send_email outcome = Except.ok ())
    ∧ (∀ (st : LoopState) (s : RawServer),
        (processBody ⟨(processBody st s).status, false, [], []⟩ s).changes = false
        ∧ (processBody ⟨(processBody st s).status, false, [], []⟩ s).changeLines = []) := by
  refine ⟨fun st s => rfl, fun sid ng m => diffMachine_self sid ng m,
    fun outcome => by cases outcome <;> rfl, fun st s => ⟨?_, ?_⟩⟩
  · rw [processBody_changes]
    show changedAt (processBody st s).status s = false
    unfold changedAt
    rw [processBody_status, lookup_insert, if_pos rfl]
    show (diffMachine s.id (s.num_gpus.getD 0) (obsOf s) (obsOf s)).1 = false
    rw [diffMachine_self]
  · rw [processBody_changeLines]
    rw [processBody_status, lookup_insert, if_pos rfl]
    show ([] : List ChangeLine)
      ++ (diffMachine s.id (s.num_gpus.getD 0) (obsOf s) (obsOf s)).2 = []
    rw [diffMachine_self]
    rfl
